import Mathlib

/-!
# H.264 encode path of the NVIDIA VA-API backend

A shallow embedding of `src/h264_encode.c` and of the data declarations of
`src/vabackend.h` that it uses, followed by theorems about the embedded code.

Conventions of the embedding

* C integers are `Nat` or `Int`; no arithmetic of the embedded code can wrap.
* A pointer whose target the embedded code reads (`NVBuffer.ptr`,
  `NVContext.lastSliceParams`) is represented by the object it points at, a
  `Pointee`; the buffer is taken as it is while it is submitted, which is the
  immutability the design asks of a mapped buffer.  All other pointers and
  engine handles are plain addresses (`Handle`).
* A handler `void f(NVContext *ctx, NVBuffer *buffer, NV_ENC_PIC_PARAMS *pp)`
  becomes a function on `HandlerState`, the three objects it can write through
  its arguments together with the log sink it can reach through `logger`.
  It returns `none` where the C code reads memory that is not there (a cast of
  `ptr` to a type the target does not have, an index past the end of an
  array, a byte range past the end of a buffer).
-/

namespace NvH264Enc

/-! ## Scalars, handles, external constants -/

/-- One octet. -/
abbrev Byte := Fin 256

/-- Byte image of a structure whose declaration lives in an external header. -/
abbrev Blob := List Byte

/-- An address or an engine handle that the embedded code never dereferences. -/
abbrev Handle := Nat

/-- The null pointer. -/
def NULL : Handle := 0

/-- The C enum `VAProfile` of libva. -/
abbrev VAProfile := Int

/-- Value of `VAProfileH264Main` in `va/va.h`. -/
def VAProfileH264Main : VAProfile := 6

/-- Value of `VAProfileH264High` in `va/va.h`. -/
def VAProfileH264High : VAProfile := 7

/-- Value of `VAProfileH264ConstrainedBaseline` in `va/va.h`. -/
def VAProfileH264ConstrainedBaseline : VAProfile := 13

/-- The C enum `VAEntrypoint` of libva. -/
abbrev VAEntrypoint := Int

/-- The C enum `VABufferType` of libva. -/
abbrev VABufferType := Int

/-- Value of `VAPictureParameterBufferType` in `va/va.h`. -/
def VAPictureParameterBufferType : VABufferType := 0

/-- Value of `VAIQMatrixBufferType` in `va/va.h`. -/
def VAIQMatrixBufferType : VABufferType := 1

/-- Value of `VASliceParameterBufferType` in `va/va.h`. -/
def VASliceParameterBufferType : VABufferType := 4

/-- Value of `VASliceDataBufferType` in `va/va.h`. -/
def VASliceDataBufferType : VABufferType := 5

/-- The C enum `cudaVideoCodec` of the CUVID headers. -/
abbrev cudaVideoCodec := Int

/-- Value of `cudaVideoCodec_H264` in `cuviddec.h`. -/
def cudaVideoCodec_H264 : cudaVideoCodec := 4

/-- The macro `cudaVideoCodec_NONE` of `vabackend.h`: `((cudaVideoCodec) -1)`. -/
def cudaVideoCodec_NONE : cudaVideoCodec := -1

/-- The C enum `NVENCSTATUS` of `nvEncodeAPI.h`. -/
abbrev NVENCSTATUS := Int

/-- Value of `NV_ENC_SUCCESS` in `nvEncodeAPI.h`. -/
def NV_ENC_SUCCESS : NVENCSTATUS := 0

/-- The C enum `NV_ENC_PIC_STRUCT` of `nvEncodeAPI.h`. -/
abbrev NV_ENC_PIC_STRUCT := Int

/-- Value of `NV_ENC_PIC_STRUCT_FRAME` in `nvEncodeAPI.h`. -/
def NV_ENC_PIC_STRUCT_FRAME : NV_ENC_PIC_STRUCT := 1

/-- The `GUID` structure of `nvEncodeAPI.h`. -/
structure GUID where
  Data1 : Nat
  Data2 : Nat
  Data3 : Nat
  Data4 : List Nat
deriving DecidableEq, Repr

/-- Value of `NV_ENC_CODEC_H264_GUID` in `nvEncodeAPI.h`. -/
def NV_ENC_CODEC_H264_GUID : GUID :=
  { Data1 := 0x6bc82762, Data2 := 0x4e63, Data3 := 0x4ca4,
    Data4 := [0xaa, 0x85, 0x1e, 0x50, 0xf3, 0x21, 0xf6, 0xbf] }

/-- The local `GUID emptyGUID = {0}` of `computeH264NvencGUID`: every member zero. -/
def emptyGUID : GUID :=
  { Data1 := 0, Data2 := 0, Data3 := 0, Data4 := [0, 0, 0, 0, 0, 0, 0, 0] }

/-! ## Data model (`vabackend.h`) -/

/-- The members of `VAPictureParameterBufferH264` that the encode path reads:
`pic_fields.bits.reference_pic_flag`; `others` stands for the rest of the structure. -/
structure VAPictureParameterBufferH264 where
  reference_pic_flag : Nat
  others : Blob
deriving DecidableEq, Repr

/-- The members of `VASliceParameterBufferH264` that the encode path reads;
`others` stands for the rest of the structure. -/
structure VASliceParameterBufferH264 where
  slice_data_size : Nat
  slice_data_offset : Nat
  others : Blob
deriving DecidableEq, Repr

/-- What a `void *` of the embedded code points at. -/
inductive Pointee where
  | null
  | picParamH264 (p : VAPictureParameterBufferH264)
  | sliceParamsH264 (a : List VASliceParameterBufferH264)
  | bytes (d : List Byte)
deriving DecidableEq, Repr

/-- The structure `AppendableBuffer`.  `buf` is the content of the storage up
to the fill level, so the member `size` is its length. -/
structure AppendableBuffer where
  buf : List Byte
  allocated : Nat
deriving DecidableEq, Repr

/-- The member `size` of `AppendableBuffer`: the number of bytes stored. -/
def AppendableBuffer.size (ab : AppendableBuffer) : Nat := ab.buf.length

/-- The structure `NVBuffer`. -/
structure NVBuffer where
  elements : Nat
  size : Nat
  bufferType : VABufferType
  ptr : Pointee
  offset : Nat
deriving DecidableEq, Repr

/-- The structure `CUVIDPICPARAMS` of the CUVID headers, as a byte image. -/
structure CUVIDPICPARAMS where
  image : Blob
deriving DecidableEq, Repr

/-- The structure `NVContext` (`struct _NVContext`), member by member.  The
pthread objects and the structures of the engine headers are byte images. -/
structure NVContext where
  drv : Handle
  profile : VAProfile
  entrypoint : VAEntrypoint
  width : Nat
  height : Nat
  decoder : Handle
  nvencEncoder : Handle
  renderTarget : Handle
  lastSliceParams : Pointee
  lastSliceParamsCount : Nat
  bitstreamBuffer : AppendableBuffer
  sliceOffsets : AppendableBuffer
  pPicParams : CUVIDPICPARAMS
  codec : Handle
  currentPictureId : Int
  resolveThread : Handle
  resolveMutex : Blob
  resolveCondition : Blob
  surfaceQueue : List Handle
  surfaceQueueReadIdx : Int
  surfaceQueueWriteIdx : Int
  exiting : Bool
  surfaceCreationMutex : Blob
  surfaceCount : Int
  firstKeyframeValid : Bool
  isEncoding : Bool
  encInitParams : Blob
  encConfig : Blob
  encGUID : GUID
  presetGUID : GUID
deriving DecidableEq, Repr

/-- The members of `NV_ENC_PIC_PARAMS_H264` (`codecPicParams.h264PicParams`)
that the encode path writes; `others` stands for the rest of the structure. -/
structure NV_ENC_PIC_PARAMS_H264 where
  refPicFlag : Nat
  forceIntraRefreshWithFrameCnt : Nat
  others : Blob
deriving DecidableEq, Repr

/-- The members of `NV_ENC_PIC_PARAMS` that the encode path writes; `others`
stands for the rest of the structure. -/
structure NV_ENC_PIC_PARAMS where
  encodePicFlags : Nat
  inputTimeStamp : Nat
  inputDuration : Nat
  outputBitstream : Handle
  completionEvent : Handle
  pictureStruct : NV_ENC_PIC_STRUCT
  h264PicParams : NV_ENC_PIC_PARAMS_H264
  others : Blob
deriving DecidableEq, Repr

/-- One call of the log sink: the call site, the format and its arguments. -/
structure LogRecord where
  filename : String
  function : String
  line : Int
  msg : String
  args : List Int
deriving DecidableEq, Repr

/-- Everything a handler can reach: the objects behind its three pointer
arguments and the log sink. -/
structure HandlerState (P : Type) where
  ctx : NVContext
  buffer : NVBuffer
  picParams : P
  log : List LogRecord
deriving DecidableEq

/-- The type `HandlerFunc`: `void (*)(NVContext*, NVBuffer*, CUVIDPICPARAMS*)`. -/
abbrev HandlerFunc := HandlerState CUVIDPICPARAMS → Option (HandlerState CUVIDPICPARAMS)

/-- The type `EncodeHandlerFunc`: `void (*)(NVContext*, NVBuffer*, NV_ENC_PIC_PARAMS*)`. -/
abbrev EncodeHandlerFunc := HandlerState NV_ENC_PIC_PARAMS → Option (HandlerState NV_ENC_PIC_PARAMS)

/-- The structure `NVCodec` (`struct _NVCodec`).  An array of handlers indexed by
buffer type is a function into `Option`, `none` being a null entry; a profile
array is `none` when the pointer is null. -/
structure NVCodec where
  computeCudaCodec : VAProfile → cudaVideoCodec
  computeNvencGUID : VAProfile → GUID
  handlers : VABufferType → Option HandlerFunc
  encodeHandlers : VABufferType → Option EncodeHandlerFunc
  supportedProfileCount : Int
  supportedProfiles : Option (List VAProfile)
  supportedEncodeProfileCount : Int
  supportedEncodeProfiles : Option (List VAProfile)

/-! ## Collaborators declared in `vabackend.h` -/

/-- A pointer into the bytes of an object: the object and a byte offset. -/
structure BytePtr where
  base : Pointee
  off : Nat
deriving DecidableEq, Repr

/-- The macro `PTROFF(base, bytes)`:
`((void *)((unsigned char *)(base) + (bytes)))`. -/
def PTROFF (base : Pointee) (bytes : Nat) : BytePtr :=
  { base := base, off := bytes }

/-- Reading `size` bytes at a byte pointer: the bytes `[off, off + size)` of the
object, which has to be a byte buffer holding at least `off + size` bytes. -/
def readBytes (p : BytePtr) (size : Nat) : Option (List Byte) :=
  match p.base with
  | .bytes d => if p.off + size ≤ d.length then some ((d.drop p.off).take size) else none
  | _ => none

/-- Modelled from the spec: `appendBuffer`, declared in `vabackend.h` and defined
outside the given sources.  Section 4.1: append copies `size` bytes starting at
the buffer's current length, growing the backing storage when it is
insufficient, to double the previous capacity, or to exactly
`current_length + size` if doubling is insufficient. -/
def appendBuffer (ab : AppendableBuffer) (buf : BytePtr) (size : Nat) :
    Option AppendableBuffer :=
  match readBytes buf size with
  | none => none
  | some src =>
    some { buf := ab.buf ++ src
           allocated :=
             if ab.size + size ≤ ab.allocated then ab.allocated
             else if ab.size + size ≤ 2 * ab.allocated then 2 * ab.allocated
             else ab.size + size }

/-- Modelled from the spec: `logger`, declared in `vabackend.h` and defined
outside the given sources.  Section 6: a single
`log(file, function, line, message, ...)` sink; one call hands one record to it. -/
def logger (filename function : String) (line : Int) (msg : String) (args : List Int)
    (sink : List LogRecord) : List LogRecord :=
  sink ++ [{ filename := filename, function := function, line := line, msg := msg, args := args }]

/-! ## `h264_encode.c` -/

/-- The function `checkNvencErrors`: the returned flag and the log sink after the call. -/
def checkNvencErrors (err : NVENCSTATUS) (file function : String) (line : Int)
    (sink : List LogRecord) : Bool × List LogRecord :=
  if NV_ENC_SUCCESS ≠ err then
    (true, logger file function line "NVENC ERROR \x27%d\x27 (%d)\n" [err, err] sink)
  else
    (false, sink)

/-- The handler `copyH264EncPicParam`. -/
def copyH264EncPicParam (s : HandlerState NV_ENC_PIC_PARAMS) :
    Option (HandlerState NV_ENC_PIC_PARAMS) :=
  match s.buffer.ptr with
  | .picParamH264 buf =>
    some { s with
      picParams :=
        { s.picParams with
          encodePicFlags := 0
          inputTimeStamp := 0
          inputDuration := 0
          pictureStruct := NV_ENC_PIC_STRUCT_FRAME
          h264PicParams :=
            { s.picParams.h264PicParams with
              refPicFlag := if buf.reference_pic_flag ≠ 0 then 1 else 0
              forceIntraRefreshWithFrameCnt := 0 }
          outputBitstream := NULL
          completionEvent := NULL } }
  | _ => none

/-- The handler `copyH264EncSliceParam`. -/
def copyH264EncSliceParam (s : HandlerState NV_ENC_PIC_PARAMS) :
    Option (HandlerState NV_ENC_PIC_PARAMS) :=
  some { s with
    ctx :=
      { s.ctx with
        lastSliceParams := s.buffer.ptr
        lastSliceParamsCount := s.buffer.elements } }

/-- Element `i` of the array behind `ctx->lastSliceParams`, read as
`VASliceParameterBufferH264`. -/
def sliceParamAt (p : Pointee) (i : Nat) : Option VASliceParameterBufferH264 :=
  match p with
  | .sliceParamsH264 a => a.get? i
  | _ => none

/-- The `for` loop of `copyH264EncSliceData`, entered with counter `i` and
`todo = ctx->lastSliceParamsCount - i` iterations to go.  Only
`ctx->bitstreamBuffer` changes from one iteration to the next. -/
def copyH264EncSliceData.loop (lastSliceParams : Pointee) (ptr : Pointee) :
    Nat → Nat → AppendableBuffer → Option AppendableBuffer
  | 0, _, ab => some ab
  | todo + 1, i, ab =>
    match sliceParamAt lastSliceParams i with
    | none => none
    | some sliceParams =>
      match appendBuffer ab (PTROFF ptr sliceParams.slice_data_offset)
              sliceParams.slice_data_size with
      | none => none
      | some ab1 => copyH264EncSliceData.loop lastSliceParams ptr todo (i + 1) ab1

/-- The handler `copyH264EncSliceData`. -/
def copyH264EncSliceData (s : HandlerState NV_ENC_PIC_PARAMS) :
    Option (HandlerState NV_ENC_PIC_PARAMS) :=
  match copyH264EncSliceData.loop s.ctx.lastSliceParams s.buffer.ptr
          s.ctx.lastSliceParamsCount 0 s.ctx.bitstreamBuffer with
  | none => none
  | some ab => some { s with ctx := { s.ctx with bitstreamBuffer := ab } }

/-- The handler `ignoreH264EncBuffer`. -/
def ignoreH264EncBuffer (s : HandlerState NV_ENC_PIC_PARAMS) :
    Option (HandlerState NV_ENC_PIC_PARAMS) :=
  some s

/-- The function `computeH264NvencGUID`. -/
def computeH264NvencGUID (profile : VAProfile) : GUID :=
  if profile = VAProfileH264ConstrainedBaseline ∨
     profile = VAProfileH264Main ∨
     profile = VAProfileH264High then
    NV_ENC_CODEC_H264_GUID
  else
    emptyGUID

/-- The function `computeH264CudaCodec`. -/
def computeH264CudaCodec (profile : VAProfile) : cudaVideoCodec :=
  if profile = VAProfileH264ConstrainedBaseline ∨
     profile = VAProfileH264Main ∨
     profile = VAProfileH264High then
    cudaVideoCodec_H264
  else
    cudaVideoCodec_NONE

/-- The array `h264EncSupportedProfiles`. -/
def h264EncSupportedProfiles : List VAProfile :=
  [VAProfileH264ConstrainedBaseline, VAProfileH264Main, VAProfileH264High]

/-- The descriptor `h264EncCodec`. -/
def h264EncCodec : NVCodec :=
  { computeCudaCodec := computeH264CudaCodec
    computeNvencGUID := computeH264NvencGUID
    handlers := fun _ => none
    encodeHandlers := fun t =>
      if t = VAPictureParameterBufferType then some copyH264EncPicParam
      else if t = VAIQMatrixBufferType then some ignoreH264EncBuffer
      else if t = VASliceParameterBufferType then some copyH264EncSliceParam
      else if t = VASliceDataBufferType then some copyH264EncSliceData
      else none
    supportedProfileCount := 0
    supportedProfiles := none
    supportedEncodeProfileCount := h264EncSupportedProfiles.length
    supportedEncodeProfiles := some h264EncSupportedProfiles }

/-! ## Selection and dispatch, which live outside the given sources -/

/-- The two entrypoints of section 3 of the design. -/
inductive Entrypoint where
  | Decode
  | Encode
deriving DecidableEq, Repr

/-- The error taxonomy of section 7 of the design. -/
inductive Error where
  | ErrorInvalidHandle
  | ErrorUnsupportedProfile
  | ErrorInvalidState
  | ErrorDecodeFailed
  | ErrorEngineCall
deriving DecidableEq, Repr

/-- The profile set that a count and an array pointer of `NVCodec` stand for:
the first `count` entries of the array, nothing for a null pointer. -/
def profileSet (count : Int) (profiles : Option (List VAProfile)) : List VAProfile :=
  match profiles with
  | none => []
  | some a => a.take count.toNat

/-- Modelled from the spec: the matching test of codec selection, which is defined
outside the given sources.  Section 4.3: a descriptor matches when its
supported-profile set (decode or encode, matching the entrypoint) contains the
profile. -/
def codecMatches (c : NVCodec) (profile : VAProfile) (entrypoint : Entrypoint) : Bool :=
  match entrypoint with
  | .Decode => decide (profile ∈ profileSet c.supportedProfileCount c.supportedProfiles)
  | .Encode =>
    decide (profile ∈ profileSet c.supportedEncodeProfileCount c.supportedEncodeProfiles)

/-- Modelled from the spec: codec selection, which is defined outside the given
sources.  Section 4.3: scan all registered descriptors for one that matches;
first match wins; no match signals `ErrorUnsupportedProfile`. -/
def selectCodec (registered : List NVCodec) (profile : VAProfile) (entrypoint : Entrypoint) :
    Except Error NVCodec :=
  match registered.find? (fun c => codecMatches c profile entrypoint) with
  | some c => .ok c
  | none => .error .ErrorUnsupportedProfile

/-- Modelled from the spec: dispatch of one submitted buffer on the encode path,
which is defined outside the given sources.  Section 4.3: look up
`encode_handlers[kind]` in the session's bound descriptor; a missing handler
means that the buffer is ignored. -/
def submitBuffer (codec : NVCodec) (s : HandlerState NV_ENC_PIC_PARAMS) (buffer : NVBuffer) :
    Option (HandlerState NV_ENC_PIC_PARAMS) :=
  match codec.encodeHandlers buffer.bufferType with
  | none => some { s with buffer := buffer }
  | some handler => handler { s with buffer := buffer }

/-- Buffers submitted one after the other, in the order of the list. -/
def submitBuffers (codec : NVCodec) (s : HandlerState NV_ENC_PIC_PARAMS) :
    List NVBuffer → Option (HandlerState NV_ENC_PIC_PARAMS)
  | [] => some s
  | b :: bs =>
    match submitBuffer codec s b with
    | none => none
    | some s1 => submitBuffers codec s1 bs

/-! ## The bytes that a list of slice parameters names -/

/-- The bytes `[slice_data_offset, slice_data_offset + slice_data_size)` of a data buffer. -/
def sliceBytes (d : List Byte) (p : VASliceParameterBufferH264) : List Byte :=
  (d.drop p.slice_data_offset).take p.slice_data_size

/-- The byte ranges named by the slice parameters, one after the other, in the
order of the list. -/
def sliceConcat (d : List Byte) : List VASliceParameterBufferH264 → List Byte
  | [] => []
  | p :: ps => sliceBytes d p ++ sliceConcat d ps

/-- A slice parameter names a byte range inside a data buffer of the given length. -/
def sliceInBounds (len : Nat) (p : VASliceParameterBufferH264) : Prop :=
  p.slice_data_offset + p.slice_data_size ≤ len

instance (len : Nat) (p : VASliceParameterBufferH264) : Decidable (sliceInBounds len p) := by
  unfold sliceInBounds
  infer_instance

/-- Sum of the `slice_data_size` members. -/
def sliceSizes (ps : List VASliceParameterBufferH264) : Nat :=
  (ps.map (fun p => p.slice_data_size)).sum

/-- The context of a session that has just been allocated: every member zero. -/
def zeroContext : NVContext :=
  { drv := 0, profile := 0, entrypoint := 0, width := 0, height := 0, decoder := 0,
    nvencEncoder := 0, renderTarget := 0, lastSliceParams := .null, lastSliceParamsCount := 0,
    bitstreamBuffer := { buf := [], allocated := 0 },
    sliceOffsets := { buf := [], allocated := 0 }, pPicParams := { image := [] }, codec := 0,
    currentPictureId := 0, resolveThread := 0, resolveMutex := [], resolveCondition := [],
    surfaceQueue := [], surfaceQueueReadIdx := 0, surfaceQueueWriteIdx := 0, exiting := false,
    surfaceCreationMutex := [], surfaceCount := 0, firstKeyframeValid := false,
    isEncoding := false, encInitParams := [], encConfig := [],
    encGUID := emptyGUID, presetGUID := emptyGUID }

/-- Picture parameters with every member zero. -/
def zeroPicParams : NV_ENC_PIC_PARAMS :=
  { encodePicFlags := 0, inputTimeStamp := 0, inputDuration := 0, outputBitstream := 0,
    completionEvent := 0, pictureStruct := 0,
    h264PicParams := { refPicFlag := 0, forceIntraRefreshWithFrameCnt := 0, others := [] },
    others := [] }

/-- A slice-parameter buffer holding the given elements. -/
def sliceParamBuffer (ps : List VASliceParameterBufferH264) : NVBuffer :=
  { elements := ps.length, size := 0, bufferType := VASliceParameterBufferType,
    ptr := .sliceParamsH264 ps, offset := 0 }

/-- A slice-data buffer holding the given bytes. -/
def sliceDataBuffer (d : List Byte) : NVBuffer :=
  { elements := 1, size := d.length, bufferType := VASliceDataBufferType,
    ptr := .bytes d, offset := 0 }

/-! ## Inputs of the worked examples -/

/-- A session whose stored slice parameters name four bytes of a data buffer
that holds two. -/
def shortDataState : HandlerState NV_ENC_PIC_PARAMS :=
  { ctx :=
      { zeroContext with
        lastSliceParams :=
          .sliceParamsH264 [{ slice_data_size := 4, slice_data_offset := 0, others := [] }]
        lastSliceParamsCount := 1 }
    buffer := sliceDataBuffer [1, 2]
    picParams := zeroPicParams
    log := [] }

/-- A session whose two stored slice parameters name bytes `[1, 4)` and `[0, 2)`
of a data buffer that holds four, with two bytes already in the bitstream. -/
def twoSliceState : HandlerState NV_ENC_PIC_PARAMS :=
  { ctx :=
      { zeroContext with
        lastSliceParams :=
          .sliceParamsH264 [{ slice_data_size := 3, slice_data_offset := 1, others := [] },
                            { slice_data_size := 2, slice_data_offset := 0, others := [] }]
        lastSliceParamsCount := 2
        bitstreamBuffer := { buf := [9, 8], allocated := 2 } }
    buffer := sliceDataBuffer [10, 11, 12, 13]
    picParams := zeroPicParams
    log := [] }

/-- The statement that `copyH264EncSliceData`, run in state `s` on a data buffer
holding `d` with stored slice parameters `ps`, leaves the previous bitstream
followed by the named byte ranges, longer by the sum of the sizes. -/
def SliceDataAppended (s : HandlerState NV_ENC_PIC_PARAMS) (d : List Byte)
    (ps : List VASliceParameterBufferH264) : Prop :=
  ∃ s1, copyH264EncSliceData s = some s1 ∧
    s1.ctx.bitstreamBuffer.buf = s.ctx.bitstreamBuffer.buf ++ sliceConcat d ps ∧
    s1.ctx.bitstreamBuffer.size = s.ctx.bitstreamBuffer.size + sliceSizes ps

/-- A session in which nothing is stored yet, with a slice-parameter buffer of
one element submitted. -/
def storeState : HandlerState NV_ENC_PIC_PARAMS :=
  { ctx := zeroContext
    buffer := sliceParamBuffer [{ slice_data_size := 4, slice_data_offset := 0, others := [] }]
    picParams := zeroPicParams
    log := [] }

/-- The statement that handler `h`, run in state `s`, changes nothing of the
session but its bitstream buffer, and that only by appending bytes. -/
def OnlyBitstreamChanged (h : EncodeHandlerFunc) (s : HandlerState NV_ENC_PIC_PARAMS) : Prop :=
  ∀ s1, h s = some s1 →
    s1.ctx = { s.ctx with bitstreamBuffer := s1.ctx.bitstreamBuffer } ∧
    ∃ appended, s1.ctx.bitstreamBuffer.buf = s.ctx.bitstreamBuffer.buf ++ appended

/-- The state `twoSliceState` with one record already in the log. -/
def twoSliceStateLogged : HandlerState NV_ENC_PIC_PARAMS :=
  { twoSliceState with
    log := [{ filename := "vabackend.c", function := "nvEndPicture", line := 1,
              msg := "earlier record", args := [] }] }

/-- A session with a picture-parameter buffer submitted whose
`reference_pic_flag` is set, and picture parameters holding earlier values. -/
def picParamState : HandlerState NV_ENC_PIC_PARAMS :=
  { ctx := zeroContext
    buffer :=
      { elements := 1, size := 0, bufferType := VAPictureParameterBufferType,
        ptr := .picParamH264 { reference_pic_flag := 1, others := [] }, offset := 0 }
    picParams :=
      { encodePicFlags := 4, inputTimeStamp := 77, inputDuration := 3, outputBitstream := 4096,
        completionEvent := 8192, pictureStruct := 3,
        h264PicParams := { refPicFlag := 0, forceIntraRefreshWithFrameCnt := 5, others := [1] },
        others := [2, 3] }
    log := [] }

/-! ## Lemmas on the copy loop -/

theorem sliceBytes_length (d : List Byte) (p : VASliceParameterBufferH264)
    (h : sliceInBounds d.length p) : (sliceBytes d p).length = p.slice_data_size := by
  unfold sliceInBounds at h
  simp only [sliceBytes, List.length_take, List.length_drop]
  omega

theorem sliceConcat_length (d : List Byte) (ps : List VASliceParameterBufferH264)
    (h : ∀ p ∈ ps, sliceInBounds d.length p) : (sliceConcat d ps).length = sliceSizes ps := by
  induction ps with
  | nil => rfl
  | cons p ps ih =>
    have hp := sliceBytes_length d p (h p (List.mem_cons_self p ps))
    have hps := ih (fun q hq => h q (List.mem_cons_of_mem p hq))
    simp only [sliceConcat, List.length_append, hp, hps]
    simp [sliceSizes]

theorem appendBuffer_bytes (ab : AppendableBuffer) (d : List Byte)
    (p : VASliceParameterBufferH264) (h : sliceInBounds d.length p) :
    ∃ ab1, appendBuffer ab (PTROFF (.bytes d) p.slice_data_offset) p.slice_data_size = some ab1 ∧
      ab1.buf = ab.buf ++ sliceBytes d p := by
  unfold sliceInBounds at h
  simp [appendBuffer, readBytes, PTROFF, h, sliceBytes]

theorem appendBuffer_extends (ab ab1 : AppendableBuffer) (q : BytePtr) (n : Nat)
    (h : appendBuffer ab q n = some ab1) : ∃ src, ab1.buf = ab.buf ++ src := by
  unfold appendBuffer at h
  cases hr : readBytes q n with
  | none => simp [hr] at h
  | some src =>
    simp only [hr, Option.some.injEq] at h
    exact ⟨src, by rw [← h]⟩

theorem loop_extends (lsp ptr : Pointee) :
    ∀ (todo i : Nat) (ab ab1 : AppendableBuffer),
      copyH264EncSliceData.loop lsp ptr todo i ab = some ab1 → ∃ src, ab1.buf = ab.buf ++ src := by
  intro todo
  induction todo with
  | zero =>
    intro i ab ab1 h
    simp only [copyH264EncSliceData.loop, Option.some.injEq] at h
    exact ⟨[], by simp [h]⟩
  | succ n ih =>
    intro i ab ab1 h
    unfold copyH264EncSliceData.loop at h
    cases hsp : sliceParamAt lsp i with
    | none => simp [hsp] at h
    | some sp =>
      simp only [hsp] at h
      cases hab : appendBuffer ab (PTROFF ptr sp.slice_data_offset) sp.slice_data_size with
      | none => simp [hab] at h
      | some ab2 =>
        simp only [hab] at h
        obtain ⟨src1, h1⟩ := appendBuffer_extends ab ab2 _ _ hab
        obtain ⟨src2, h2⟩ := ih (i + 1) ab2 ab1 h
        exact ⟨src1 ++ src2, by rw [h2, h1, List.append_assoc]⟩

theorem loop_in_bounds (l : List VASliceParameterBufferH264) (d : List Byte) :
    ∀ (todo i : Nat) (ab : AppendableBuffer),
      i + todo ≤ l.length →
      (∀ p ∈ (l.drop i).take todo, sliceInBounds d.length p) →
      ∃ ab1, copyH264EncSliceData.loop (.sliceParamsH264 l) (.bytes d) todo i ab = some ab1 ∧
        ab1.buf = ab.buf ++ sliceConcat d ((l.drop i).take todo) := by
  intro todo
  induction todo with
  | zero =>
    intro i ab _ _
    exact ⟨ab, rfl, by simp [sliceConcat]⟩
  | succ n ih =>
    intro i ab hlen hin
    have hi : i < l.length := by omega
    have hdrop : l.drop i = l[i] :: l.drop (i + 1) := List.drop_eq_getElem_cons hi
    have htake : (l.drop i).take (n + 1) = l[i] :: (l.drop (i + 1)).take n := by
      rw [hdrop, List.take_succ_cons]
    rw [htake] at hin
    obtain ⟨ab2, hab2, hbuf2⟩ :=
      appendBuffer_bytes ab d l[i] (hin l[i] (List.mem_cons_self _ _))
    obtain ⟨ab1, hab1, hbuf1⟩ :=
      ih (i + 1) ab2 (by omega) (fun q hq => hin q (List.mem_cons_of_mem _ hq))
    refine ⟨ab1, ?_, ?_⟩
    · unfold copyH264EncSliceData.loop
      have hget : sliceParamAt (.sliceParamsH264 l) i = some l[i] := by
        simp [sliceParamAt, List.getElem?_eq_getElem hi]
      simp only [hget, hab2, hab1]
    · rw [hbuf1, hbuf2, htake, sliceConcat, List.append_assoc]

theorem loop_some_in_bounds (l : List VASliceParameterBufferH264) (d : List Byte) :
    ∀ (todo i : Nat) (ab ab1 : AppendableBuffer),
      i + todo ≤ l.length →
      copyH264EncSliceData.loop (.sliceParamsH264 l) (.bytes d) todo i ab = some ab1 →
      ∀ p ∈ (l.drop i).take todo, sliceInBounds d.length p := by
  intro todo
  induction todo with
  | zero =>
    intro i ab ab1 _ _ p hp
    simp at hp
  | succ n ih =>
    intro i ab ab1 hlen h p hp
    have hi : i < l.length := by omega
    have hdrop : l.drop i = l[i] :: l.drop (i + 1) := List.drop_eq_getElem_cons hi
    have htake : (l.drop i).take (n + 1) = l[i] :: (l.drop (i + 1)).take n := by
      rw [hdrop, List.take_succ_cons]
    have hget : sliceParamAt (.sliceParamsH264 l) i = some l[i] := by
      simp [sliceParamAt, List.getElem?_eq_getElem hi]
    unfold copyH264EncSliceData.loop at h
    simp only [hget] at h
    cases hab : appendBuffer ab (PTROFF (.bytes d) l[i].slice_data_offset)
        l[i].slice_data_size with
    | none => simp [hab] at h
    | some ab2 =>
      simp only [hab] at h
      rw [htake, List.mem_cons] at hp
      rcases hp with hp | hp
      · subst hp
        unfold sliceInBounds
        by_contra hnot
        simp [appendBuffer, readBytes, PTROFF, hnot] at hab
      · exact ih (i + 1) ab2 ab1 (by omega) h p hp

theorem submit_slice_pair (s : HandlerState NV_ENC_PIC_PARAMS)
    (ps : List VASliceParameterBufferH264) (d : List Byte)
    (hin : ∀ p ∈ ps, sliceInBounds d.length p) :
    ∃ s1,
      (∀ rest, submitBuffers h264EncCodec s (sliceParamBuffer ps :: sliceDataBuffer d :: rest)
        = submitBuffers h264EncCodec s1 rest) ∧
      s1.ctx.bitstreamBuffer.buf = s.ctx.bitstreamBuffer.buf ++ sliceConcat d ps := by
  obtain ⟨ab1, hloop, hbuf⟩ :=
    loop_in_bounds ps d ps.length 0 s.ctx.bitstreamBuffer (by omega) (by simpa using hin)
  simp only [List.drop_zero, List.take_length] at hbuf
  refine ⟨{ s with
            buffer := sliceDataBuffer d
            ctx := { s.ctx with
                     lastSliceParams := .sliceParamsH264 ps
                     lastSliceParamsCount := ps.length
                     bitstreamBuffer := ab1 } }, ?_, hbuf⟩
  intro rest
  have hA : submitBuffer h264EncCodec s (sliceParamBuffer ps)
      = some { s with
               buffer := sliceParamBuffer ps
               ctx := { s.ctx with
                        lastSliceParams := .sliceParamsH264 ps
                        lastSliceParamsCount := ps.length } } := rfl
  have hB : submitBuffer h264EncCodec
      { s with
        buffer := sliceParamBuffer ps
        ctx := { s.ctx with
                 lastSliceParams := .sliceParamsH264 ps
                 lastSliceParamsCount := ps.length } } (sliceDataBuffer d)
      = some { s with
               buffer := sliceDataBuffer d
               ctx := { s.ctx with
                        lastSliceParams := .sliceParamsH264 ps
                        lastSliceParamsCount := ps.length
                        bitstreamBuffer := ab1 } } := by
    show copyH264EncSliceData _ = _
    simp only [copyH264EncSliceData, sliceDataBuffer, hloop]
  rw [submitBuffers, hA]
  simp only [submitBuffers, hB]

/-- C1, as stated, fails: with one stored slice parameter (offset 0, size 4) and
a slice-data buffer of two bytes the handler reads past the end of the buffer
and leaves no bitstream made of bytes of the data buffer. -/
theorem slice_concatenation_short_buffer :
    copyH264EncSliceData shortDataState = none ∧
    ¬ SliceDataAppended shortDataState [1, 2]
        [{ slice_data_size := 4, slice_data_offset := 0, others := [] }] := by
  have h : copyH264EncSliceData shortDataState = none := by decide
  refine ⟨h, ?_⟩
  rintro ⟨s1, hs1, _⟩
  rw [h] at hs1
  cases hs1

/-- C1, amended: when the stored slice-parameter array has at least
`lastSliceParamsCount = n` elements and each of its first `n` elements names a
byte range inside the slice-data buffer, `copyH264EncSliceData` returns and
leaves the bitstream equal to the previous bitstream followed by those byte
ranges in order, longer by the sum of their `slice_data_size`.  Starting from
an empty bitstream, slice-params (0, 100), 100 data bytes, slice-params (0, 50),
50 data bytes, submitted in this order, leave the 150 bytes of the first data
buffer followed by the second. -/
theorem slice_concatenation :
    (∀ (s : HandlerState NV_ENC_PIC_PARAMS) (l : List VASliceParameterBufferH264)
        (d : List Byte),
        s.ctx.lastSliceParams = .sliceParamsH264 l →
        s.buffer.ptr = .bytes d →
        s.ctx.lastSliceParamsCount ≤ l.length →
        (∀ p ∈ l.take s.ctx.lastSliceParamsCount, sliceInBounds d.length p) →
        SliceDataAppended s d (l.take s.ctx.lastSliceParamsCount)) ∧
    (∀ (s : HandlerState NV_ENC_PIC_PARAMS) (d1 d2 : List Byte) (o1 o2 : Blob),
        s.ctx.bitstreamBuffer.buf = [] → d1.length = 100 → d2.length = 50 →
        ∃ s1,
          submitBuffers h264EncCodec s
            [sliceParamBuffer [{ slice_data_size := 100, slice_data_offset := 0, others := o1 }],
             sliceDataBuffer d1,
             sliceParamBuffer [{ slice_data_size := 50, slice_data_offset := 0, others := o2 }],
             sliceDataBuffer d2] = some s1 ∧
          s1.ctx.bitstreamBuffer.buf = d1 ++ d2 ∧
          s1.ctx.bitstreamBuffer.size = 150) := by
  constructor
  · intro s l d hl hd hn hin
    obtain ⟨ab1, hloop, hbuf⟩ :=
      loop_in_bounds l d s.ctx.lastSliceParamsCount 0 s.ctx.bitstreamBuffer
        (by omega) (by simpa using hin)
    rw [List.drop_zero] at hbuf
    refine ⟨{ s with ctx := { s.ctx with bitstreamBuffer := ab1 } }, ?_, hbuf, ?_⟩
    · simp only [copyH264EncSliceData, hl, hd, hloop]
    · simp only [AppendableBuffer.size, hbuf, List.length_append,
        sliceConcat_length d _ hin]
  · intro s d1 d2 o1 o2 hs h1 h2
    have e1 : sliceConcat d1 [{ slice_data_size := 100, slice_data_offset := 0, others := o1 }]
        = d1 := by
      simp [sliceConcat, sliceBytes, ← h1]
    have e2 : sliceConcat d2 [{ slice_data_size := 50, slice_data_offset := 0, others := o2 }]
        = d2 := by
      simp [sliceConcat, sliceBytes, ← h2]
    obtain ⟨sa, hsa, hbufa⟩ := submit_slice_pair s
      [{ slice_data_size := 100, slice_data_offset := 0, others := o1 }] d1
      (by simp [sliceInBounds, h1])
    obtain ⟨sb, hsb, hbufb⟩ := submit_slice_pair sa
      [{ slice_data_size := 50, slice_data_offset := 0, others := o2 }] d2
      (by simp [sliceInBounds, h2])
    have hbuf : sb.ctx.bitstreamBuffer.buf = d1 ++ d2 := by
      rw [hbufb, hbufa, hs, e1, e2, List.nil_append]
    refine ⟨sb, ?_, hbuf, ?_⟩
    · rw [hsa, hsb]
      rfl
    · simp [AppendableBuffer.size, hbuf, h1, h2]

/-- C1, amended, on worked inputs: two stored slice parameters naming bytes
`[1, 4)` and `[0, 2)` of a four-byte data buffer; and the two-buffer scenario
with 100 bytes of value 1 followed by 50 bytes of value 2. -/
theorem slice_concatenation_witness :
    SliceDataAppended twoSliceState [10, 11, 12, 13]
      ([{ slice_data_size := 3, slice_data_offset := 1, others := [] },
        { slice_data_size := 2, slice_data_offset := 0, others := [] }].take 2) ∧
    ∃ s1,
      submitBuffers h264EncCodec storeState
        [sliceParamBuffer [{ slice_data_size := 100, slice_data_offset := 0, others := [] }],
         sliceDataBuffer (List.replicate 100 1),
         sliceParamBuffer [{ slice_data_size := 50, slice_data_offset := 0, others := [] }],
         sliceDataBuffer (List.replicate 50 2)] = some s1 ∧
      s1.ctx.bitstreamBuffer.buf = List.replicate 100 1 ++ List.replicate 50 2 ∧
      s1.ctx.bitstreamBuffer.size = 150 :=
  ⟨slice_concatenation.1 twoSliceState
      [{ slice_data_size := 3, slice_data_offset := 1, others := [] },
       { slice_data_size := 2, slice_data_offset := 0, others := [] }]
      [10, 11, 12, 13] rfl rfl (by decide) (by decide),
   slice_concatenation.2 storeState (List.replicate 100 1) (List.replicate 50 2) [] [] rfl
      (List.length_replicate 100 1) (List.length_replicate 50 2)⟩

/-- C8: for a slice-data buffer of `d.length` bytes and a stored slice-parameter
list `l` whose length is the stored count and whose elements all satisfy
`slice_data_offset + slice_data_size ≤ d.length`, every index the loop of
`copyH264EncSliceData` reads is inside `l`, every byte range it reads is inside
the data buffer, and the handler returns.  The handler has no check of its
own: with the same list and count it returns only if every element is in
bounds. -/
theorem slice_data_reads_in_bounds (s : HandlerState NV_ENC_PIC_PARAMS)
    (l : List VASliceParameterBufferH264) (d : List Byte)
    (hl : s.ctx.lastSliceParams = .sliceParamsH264 l)
    (hd : s.buffer.ptr = .bytes d)
    (hn : s.ctx.lastSliceParamsCount = l.length) :
    ((∀ p ∈ l, sliceInBounds d.length p) →
      (∀ i, i < s.ctx.lastSliceParamsCount →
        ∃ p, sliceParamAt s.ctx.lastSliceParams i = some p ∧
          (readBytes (PTROFF s.buffer.ptr p.slice_data_offset) p.slice_data_size).isSome = true) ∧
      (copyH264EncSliceData s).isSome = true) ∧
    ((copyH264EncSliceData s).isSome = true → ∀ p ∈ l, sliceInBounds d.length p) := by
  constructor
  · intro hin
    constructor
    · intro i hi
      have hi1 : i < l.length := by omega
      refine ⟨l[i], ?_, ?_⟩
      · simp [hl, sliceParamAt, List.getElem?_eq_getElem hi1]
      · have hb := hin l[i] (List.getElem_mem hi1)
        unfold sliceInBounds at hb
        simp [hd, readBytes, PTROFF, hb]
    · obtain ⟨ab1, hloop, _⟩ :=
        loop_in_bounds l d s.ctx.lastSliceParamsCount 0 s.ctx.bitstreamBuffer
          (by omega) (by simpa [hn] using hin)
      simp only [copyH264EncSliceData, hl, hd, hloop, Option.isSome_some]
  · intro hsome
    cases hloop : copyH264EncSliceData.loop (.sliceParamsH264 l) (.bytes d)
        l.length 0 s.ctx.bitstreamBuffer with
    | none => simp [copyH264EncSliceData, hl, hd, hn, hloop] at hsome
    | some ab1 =>
      have h := loop_some_in_bounds l d l.length 0 s.ctx.bitstreamBuffer ab1 (by omega) hloop
      simpa using h

/-- C8 on a worked input: two stored slice parameters, both inside a four-byte
data buffer. -/
theorem slice_data_reads_in_bounds_witness :
    (copyH264EncSliceData twoSliceState).isSome = true :=
  ((slice_data_reads_in_bounds twoSliceState
    [{ slice_data_size := 3, slice_data_offset := 1, others := [] },
     { slice_data_size := 2, slice_data_offset := 0, others := [] }]
    [10, 11, 12, 13] rfl rfl rfl).1 (by decide)).2

/-! ## The handler table -/

theorem registered_handlers (t : VABufferType) (h : EncodeHandlerFunc)
    (ht : h264EncCodec.encodeHandlers t = some h) :
    (t = VAPictureParameterBufferType ∧ h = copyH264EncPicParam) ∨
    (t = VAIQMatrixBufferType ∧ h = ignoreH264EncBuffer) ∨
    (t = VASliceParameterBufferType ∧ h = copyH264EncSliceParam) ∨
    (t = VASliceDataBufferType ∧ h = copyH264EncSliceData) := by
  simp only [h264EncCodec] at ht
  split at ht
  · exact Or.inl ⟨by assumption, (Option.some.inj ht).symm⟩
  · split at ht
    · exact Or.inr (Or.inl ⟨by assumption, (Option.some.inj ht).symm⟩)
    · split at ht
      · exact Or.inr (Or.inr (Or.inl ⟨by assumption, (Option.some.inj ht).symm⟩))
      · split at ht
        · exact Or.inr (Or.inr (Or.inr ⟨by assumption, (Option.some.inj ht).symm⟩))
        · cases ht

theorem copyH264EncPicParam_frame (s s1 : HandlerState NV_ENC_PIC_PARAMS)
    (h : copyH264EncPicParam s = some s1) :
    s1.ctx = s.ctx ∧ s1.buffer = s.buffer ∧ s1.log = s.log := by
  unfold copyH264EncPicParam at h
  split at h
  · cases h
    exact ⟨rfl, rfl, rfl⟩
  · cases h

theorem copyH264EncSliceData_frame (s s1 : HandlerState NV_ENC_PIC_PARAMS)
    (h : copyH264EncSliceData s = some s1) :
    s1.ctx = { s.ctx with bitstreamBuffer := s1.ctx.bitstreamBuffer } ∧
    (∃ appended, s1.ctx.bitstreamBuffer.buf = s.ctx.bitstreamBuffer.buf ++ appended) ∧
    s1.buffer = s.buffer ∧ s1.picParams = s.picParams ∧ s1.log = s.log := by
  unfold copyH264EncSliceData at h
  cases hloop : copyH264EncSliceData.loop s.ctx.lastSliceParams s.buffer.ptr
      s.ctx.lastSliceParamsCount 0 s.ctx.bitstreamBuffer with
  | none => simp [hloop] at h
  | some ab =>
    simp only [hloop, Option.some.injEq] at h
    subst h
    exact ⟨rfl, loop_extends _ _ _ _ _ _ hloop, rfl, rfl, rfl⟩

/-- C3, as stated, fails: `copyH264EncSliceParam` is registered for
slice-parameter buffers and overwrites the session members `lastSliceParams`
and `lastSliceParamsCount`, which are neither the picture parameters nor the
bitstream buffer. -/
theorem handler_effects_slice_param_store :
    h264EncCodec.encodeHandlers VASliceParameterBufferType = some copyH264EncSliceParam ∧
    storeState.ctx.lastSliceParamsCount = 0 ∧
    storeState.ctx.lastSliceParams = .null ∧
    (copyH264EncSliceParam storeState).map (fun s => s.ctx.lastSliceParamsCount) = some 1 ∧
    (copyH264EncSliceParam storeState).map (fun s => s.ctx.lastSliceParams) =
      some (.sliceParamsH264 [{ slice_data_size := 4, slice_data_offset := 0, others := [] }]) ∧
    ¬ OnlyBitstreamChanged copyH264EncSliceParam storeState := by
  refine ⟨rfl, rfl, rfl, rfl, rfl, ?_⟩
  intro hclaim
  have h := (hclaim _ rfl).1
  have hc := congrArg NVContext.lastSliceParamsCount h
  revert hc
  decide

/-- C3, amended: for every handler registered in `h264EncCodec.encodeHandlers`,
the only state that differs after the handler runs is the encode
picture-parameter structure, the session's bitstream buffer and the session's
stored slice parameters (`lastSliceParams`, `lastSliceParamsCount`); the stored
slice parameters change only under the handler of slice-parameter buffers;
the bitstream buffer changes only by having bytes appended; every other
session member, the submitted buffer and the log are unchanged. -/
theorem handler_effects_confined (t : VABufferType) (h : EncodeHandlerFunc)
    (ht : h264EncCodec.encodeHandlers t = some h)
    (s s1 : HandlerState NV_ENC_PIC_PARAMS) (hs : h s = some s1) :
    s1.ctx = { s.ctx with
               bitstreamBuffer := s1.ctx.bitstreamBuffer
               lastSliceParams := s1.ctx.lastSliceParams
               lastSliceParamsCount := s1.ctx.lastSliceParamsCount } ∧
    (t ≠ VASliceParameterBufferType →
      s1.ctx.lastSliceParams = s.ctx.lastSliceParams ∧
      s1.ctx.lastSliceParamsCount = s.ctx.lastSliceParamsCount) ∧
    (∃ appended, s1.ctx.bitstreamBuffer.buf = s.ctx.bitstreamBuffer.buf ++ appended) ∧
    s1.buffer = s.buffer ∧ s1.log = s.log := by
  rcases registered_handlers t h ht with ⟨_, rfl⟩ | ⟨_, rfl⟩ | ⟨ht1, rfl⟩ | ⟨_, rfl⟩
  · obtain ⟨hc, hb, hlog⟩ := copyH264EncPicParam_frame s s1 hs
    rw [hc]
    exact ⟨rfl, fun _ => ⟨rfl, rfl⟩, ⟨[], by simp⟩, hb, hlog⟩
  · cases hs
    exact ⟨rfl, fun _ => ⟨rfl, rfl⟩, ⟨[], by simp⟩, rfl, rfl⟩
  · cases hs
    exact ⟨rfl, fun hne => absurd ht1 hne, ⟨[], by simp⟩, rfl, rfl⟩
  · obtain ⟨hc, happ, hb, _, hlog⟩ := copyH264EncSliceData_frame s s1 hs
    refine ⟨?_, fun _ => ?_, happ, hb, hlog⟩
    · rw [hc]
    · rw [hc]
      exact ⟨rfl, rfl⟩

/-- C3, amended, on a worked input: the slice-data handler run on two stored
slice parameters. -/
theorem handler_effects_confined_witness :
    ∃ s1, copyH264EncSliceData twoSliceState = some s1 ∧
      s1.ctx = { twoSliceState.ctx with
                 bitstreamBuffer := s1.ctx.bitstreamBuffer
                 lastSliceParams := s1.ctx.lastSliceParams
                 lastSliceParamsCount := s1.ctx.lastSliceParamsCount } ∧
      s1.buffer = twoSliceState.buffer ∧ s1.log = twoSliceState.log :=
  ⟨{ twoSliceState with
     ctx := { twoSliceState.ctx with
              bitstreamBuffer := { buf := [9, 8, 11, 12, 13, 10, 11], allocated := 10 } } },
   by decide,
   (handler_effects_confined VASliceDataBufferType copyH264EncSliceData rfl twoSliceState _
      (by decide)).1,
   (handler_effects_confined VASliceDataBufferType copyH264EncSliceData rfl twoSliceState _
      (by decide)).2.2.2⟩

/-- C4: the handler registered for `VAIQMatrixBufferType` is
`ignoreH264EncBuffer`; it always returns, and the session, the submitted
buffer, the picture parameters and the log are then exactly as they were. -/
theorem iq_matrix_buffer_ignored :
    h264EncCodec.encodeHandlers VAIQMatrixBufferType = some ignoreH264EncBuffer ∧
    (∀ s : HandlerState NV_ENC_PIC_PARAMS, ignoreH264EncBuffer s = some s) ∧
    (∀ s : HandlerState NV_ENC_PIC_PARAMS,
      (h264EncCodec.encodeHandlers VAIQMatrixBufferType).bind (fun h => h s) = some s) :=
  ⟨rfl, fun _ => rfl, fun _ => rfl⟩

theorem copyH264EncPicParam_log_free (s t : HandlerState NV_ENC_PIC_PARAMS)
    (hc : s.ctx = t.ctx) (hb : s.buffer = t.buffer) (hp : s.picParams = t.picParams) :
    (copyH264EncPicParam s).map (fun r => (r.ctx, r.picParams)) =
      (copyH264EncPicParam t).map (fun r => (r.ctx, r.picParams)) := by
  unfold copyH264EncPicParam
  rw [hb]
  cases t.buffer.ptr <;> simp [hc, hp]

theorem copyH264EncSliceData_log_free (s t : HandlerState NV_ENC_PIC_PARAMS)
    (hc : s.ctx = t.ctx) (hb : s.buffer = t.buffer) (hp : s.picParams = t.picParams) :
    (copyH264EncSliceData s).map (fun r => (r.ctx, r.picParams)) =
      (copyH264EncSliceData t).map (fun r => (r.ctx, r.picParams)) := by
  unfold copyH264EncSliceData
  rw [hb, hc]
  cases copyH264EncSliceData.loop t.ctx.lastSliceParams t.buffer.ptr
      t.ctx.lastSliceParamsCount 0 t.ctx.bitstreamBuffer <;> simp [hp]

/-- C5: for each handler registered in `h264EncCodec.encodeHandlers` and every
input on which it returns, the session's `decoder`, `nvencEncoder`,
`renderTarget` and resolution-queue members are unchanged, the log is
unchanged, the submitted buffer is unchanged; and the resulting session and
picture parameters are the same for any two inputs that agree on the session,
the buffer and the picture parameters. -/
theorem handlers_never_touch_engine (t : VABufferType) (h : EncodeHandlerFunc)
    (ht : h264EncCodec.encodeHandlers t = some h) :
    (∀ s s1 : HandlerState NV_ENC_PIC_PARAMS, h s = some s1 →
      s1.ctx.decoder = s.ctx.decoder ∧
      s1.ctx.nvencEncoder = s.ctx.nvencEncoder ∧
      s1.ctx.renderTarget = s.ctx.renderTarget ∧
      s1.ctx.resolveThread = s.ctx.resolveThread ∧
      s1.ctx.resolveMutex = s.ctx.resolveMutex ∧
      s1.ctx.resolveCondition = s.ctx.resolveCondition ∧
      s1.ctx.surfaceQueue = s.ctx.surfaceQueue ∧
      s1.ctx.surfaceQueueReadIdx = s.ctx.surfaceQueueReadIdx ∧
      s1.ctx.surfaceQueueWriteIdx = s.ctx.surfaceQueueWriteIdx ∧
      s1.log = s.log ∧
      s1.buffer = s.buffer) ∧
    (∀ s s2 : HandlerState NV_ENC_PIC_PARAMS,
      s.ctx = s2.ctx → s.buffer = s2.buffer → s.picParams = s2.picParams →
      (h s).map (fun r => (r.ctx, r.picParams)) = (h s2).map (fun r => (r.ctx, r.picParams))) := by
  rcases registered_handlers t h ht with ⟨_, rfl⟩ | ⟨_, rfl⟩ | ⟨_, rfl⟩ | ⟨_, rfl⟩
  · refine ⟨fun s s1 hs => ?_, copyH264EncPicParam_log_free⟩
    obtain ⟨hc, hb, hlog⟩ := copyH264EncPicParam_frame s s1 hs
    rw [hc]
    exact ⟨rfl, rfl, rfl, rfl, rfl, rfl, rfl, rfl, rfl, hlog, hb⟩
  · refine ⟨fun s s1 hs => ?_, fun s s2 hc hb hp => ?_⟩
    · cases hs
      exact ⟨rfl, rfl, rfl, rfl, rfl, rfl, rfl, rfl, rfl, rfl, rfl⟩
    · simp [ignoreH264EncBuffer, hc, hp]
  · refine ⟨fun s s1 hs => ?_, fun s s2 hc hb hp => ?_⟩
    · cases hs
      exact ⟨rfl, rfl, rfl, rfl, rfl, rfl, rfl, rfl, rfl, rfl, rfl⟩
    · simp [copyH264EncSliceParam, hc, hb, hp]
  · refine ⟨fun s s1 hs => ?_, copyH264EncSliceData_log_free⟩
    obtain ⟨hc, _, hb, _, hlog⟩ := copyH264EncSliceData_frame s s1 hs
    rw [hc]
    exact ⟨rfl, rfl, rfl, rfl, rfl, rfl, rfl, rfl, rfl, hlog, hb⟩

/-- C5 on a worked input: the slice-data handler gives the same session and
picture parameters whatever the log holds. -/
theorem handlers_never_touch_engine_witness :
    h264EncCodec.encodeHandlers VASliceDataBufferType = some copyH264EncSliceData ∧
    (copyH264EncSliceData twoSliceState).map (fun r => (r.ctx, r.picParams)) =
      (copyH264EncSliceData twoSliceStateLogged).map (fun r => (r.ctx, r.picParams)) :=
  ⟨rfl, (handlers_never_touch_engine VASliceDataBufferType copyH264EncSliceData rfl).2
    twoSliceState twoSliceStateLogged rfl rfl rfl⟩

/-- C6: `checkNvencErrors` returns true exactly when the status is not
`NV_ENC_SUCCESS`; when it returns true the log sink has received exactly one
more record, which carries the file, function and line of the call and the
numeric status; when it returns false the log sink is as it was. -/
theorem checkNvencErrors_detects (err : NVENCSTATUS) (file function : String) (line : Int)
    (sink : List LogRecord) :
    ((checkNvencErrors err file function line sink).1 = true ↔ err ≠ NV_ENC_SUCCESS) ∧
    ((checkNvencErrors err file function line sink).1 = true →
      ∃ r : LogRecord, (checkNvencErrors err file function line sink).2 = sink ++ [r] ∧
        r.filename = file ∧ r.function = function ∧ r.line = line ∧ r.args = [err, err]) ∧
    ((checkNvencErrors err file function line sink).1 = false →
      (checkNvencErrors err file function line sink).2 = sink) := by
  unfold checkNvencErrors
  by_cases h : NV_ENC_SUCCESS = err
  · subst h
    simp
  · have h1 : err ≠ NV_ENC_SUCCESS := fun e => h e.symm
    simp [h, h1, logger]

/-- C6 on a worked input: status 8 reported from line 42. -/
theorem checkNvencErrors_detects_witness :
    (checkNvencErrors 8 "h264_encode.c" "caller" 42 []).1 = true ∧
    ∃ r : LogRecord, (checkNvencErrors 8 "h264_encode.c" "caller" 42 []).2 = [] ++ [r] ∧
      r.filename = "h264_encode.c" ∧ r.function = "caller" ∧ r.line = 42 ∧ r.args = [8, 8] :=
  ⟨by decide, (checkNvencErrors_detects 8 "h264_encode.c" "caller" 42 []).2.1 (by decide)⟩

/-- C7: for every profile, `computeH264NvencGUID` gives `NV_ENC_CODEC_H264_GUID`
if the profile is in `h264EncSupportedProfiles` and the all-zero GUID
otherwise, and `computeH264CudaCodec` gives `cudaVideoCodec_H264` if it is in
`h264EncSupportedProfiles` and `cudaVideoCodec_NONE`, which is -1, otherwise;
so every profile in the descriptor's encode profile set is mapped by the
descriptor to the H.264 GUID and codec id, not to the zero GUID or to NONE. -/
theorem profile_functions_agree :
    (∀ p : VAProfile,
      computeH264NvencGUID p =
        if p ∈ h264EncSupportedProfiles then NV_ENC_CODEC_H264_GUID else emptyGUID) ∧
    (∀ p : VAProfile,
      computeH264CudaCodec p =
        if p ∈ h264EncSupportedProfiles then cudaVideoCodec_H264 else cudaVideoCodec_NONE) ∧
    cudaVideoCodec_NONE = -1 ∧
    emptyGUID = { Data1 := 0, Data2 := 0, Data3 := 0, Data4 := [0, 0, 0, 0, 0, 0, 0, 0] } ∧
    (∀ p : VAProfile,
      p ∈ profileSet h264EncCodec.supportedEncodeProfileCount
            h264EncCodec.supportedEncodeProfiles →
      h264EncCodec.computeNvencGUID p = NV_ENC_CODEC_H264_GUID ∧
      h264EncCodec.computeNvencGUID p ≠ emptyGUID ∧
      h264EncCodec.computeCudaCodec p = cudaVideoCodec_H264 ∧
      h264EncCodec.computeCudaCodec p ≠ cudaVideoCodec_NONE) := by
  have hg : ∀ p : VAProfile,
      computeH264NvencGUID p =
        if p ∈ h264EncSupportedProfiles then NV_ENC_CODEC_H264_GUID else emptyGUID := by
    intro p
    simp only [computeH264NvencGUID, h264EncSupportedProfiles, List.mem_cons,
      List.mem_singleton, List.not_mem_nil, or_false]
  have hc : ∀ p : VAProfile,
      computeH264CudaCodec p =
        if p ∈ h264EncSupportedProfiles then cudaVideoCodec_H264 else cudaVideoCodec_NONE := by
    intro p
    simp only [computeH264CudaCodec, h264EncSupportedProfiles, List.mem_cons,
      List.mem_singleton, List.not_mem_nil, or_false]
  refine ⟨hg, hc, rfl, rfl, ?_⟩
  intro p hp
  have hp1 : p ∈ h264EncSupportedProfiles := by
    simpa [profileSet, h264EncCodec] using hp
  have e1 : h264EncCodec.computeNvencGUID p = NV_ENC_CODEC_H264_GUID := by
    show computeH264NvencGUID p = _
    rw [hg, if_pos hp1]
  have e2 : h264EncCodec.computeCudaCodec p = cudaVideoCodec_H264 := by
    show computeH264CudaCodec p = _
    rw [hc, if_pos hp1]
  refine ⟨e1, ?_, e2, ?_⟩
  · rw [e1]
    decide
  · rw [e2]
    decide

/-- C7 on a worked input: the High profile. -/
theorem profile_functions_agree_witness :
    VAProfileH264High ∈ profileSet h264EncCodec.supportedEncodeProfileCount
      h264EncCodec.supportedEncodeProfiles ∧
    h264EncCodec.computeNvencGUID VAProfileH264High = NV_ENC_CODEC_H264_GUID ∧
    h264EncCodec.computeNvencGUID VAProfileH264High ≠ emptyGUID ∧
    h264EncCodec.computeCudaCodec VAProfileH264High = cudaVideoCodec_H264 ∧
    h264EncCodec.computeCudaCodec VAProfileH264High ≠ cudaVideoCodec_NONE :=
  ⟨by decide, profile_functions_agree.2.2.2.2 VAProfileH264High (by decide)⟩

/-- C9: on a picture-parameter buffer `copyH264EncPicParam` returns; it sets
`refPicFlag` to 1 when the buffer's `reference_pic_flag` is non-zero and to 0
otherwise, `pictureStruct` to frame, `encodePicFlags`, `inputTimeStamp`,
`inputDuration` and `forceIntraRefreshWithFrameCnt` to 0, `outputBitstream` and
`completionEvent` to null; the other picture-parameter members, the session,
the buffer and the log are unchanged; run again on its own result it returns
that result. -/
theorem pic_param_translation (s : HandlerState NV_ENC_PIC_PARAMS)
    (buf : VAPictureParameterBufferH264) (hb : s.buffer.ptr = .picParamH264 buf) :
    ∃ s1, copyH264EncPicParam s = some s1 ∧
      (s1.picParams.h264PicParams.refPicFlag = 1 ↔ buf.reference_pic_flag ≠ 0) ∧
      (s1.picParams.h264PicParams.refPicFlag = 0 ↔ buf.reference_pic_flag = 0) ∧
      s1.picParams.pictureStruct = NV_ENC_PIC_STRUCT_FRAME ∧
      s1.picParams.encodePicFlags = 0 ∧
      s1.picParams.inputTimeStamp = 0 ∧
      s1.picParams.inputDuration = 0 ∧
      s1.picParams.h264PicParams.forceIntraRefreshWithFrameCnt = 0 ∧
      s1.picParams.outputBitstream = NULL ∧
      s1.picParams.completionEvent = NULL ∧
      s1.picParams.others = s.picParams.others ∧
      s1.picParams.h264PicParams.others = s.picParams.h264PicParams.others ∧
      s1.ctx = s.ctx ∧ s1.buffer = s.buffer ∧ s1.log = s.log ∧
      copyH264EncPicParam s1 = some s1 := by
  refine ⟨{ s with
            picParams :=
              { s.picParams with
                encodePicFlags := 0
                inputTimeStamp := 0
                inputDuration := 0
                pictureStruct := NV_ENC_PIC_STRUCT_FRAME
                h264PicParams :=
                  { s.picParams.h264PicParams with
                    refPicFlag := if buf.reference_pic_flag ≠ 0 then 1 else 0
                    forceIntraRefreshWithFrameCnt := 0 }
                outputBitstream := NULL
                completionEvent := NULL } },
    by simp only [copyH264EncPicParam, hb], ?_, ?_, rfl, rfl, rfl, rfl, rfl, rfl, rfl,
    rfl, rfl, rfl, rfl, rfl, ?_⟩
  · by_cases h : buf.reference_pic_flag = 0 <;> simp [h]
  · by_cases h : buf.reference_pic_flag = 0 <;> simp [h]
  · simp only [copyH264EncPicParam, hb]

/-- C9 on a worked input: a buffer with `reference_pic_flag` set, over picture
parameters that held other values. -/
theorem pic_param_translation_witness :
    ∃ s1, copyH264EncPicParam picParamState = some s1 ∧
      s1.picParams.h264PicParams.refPicFlag = 1 ∧
      s1.picParams.others = [2, 3] ∧
      copyH264EncPicParam s1 = some s1 := by
  obtain ⟨s1, h1, hflag, _, _, _, _, _, _, _, _, hothers, _, _, _, _, hidem⟩ :=
    pic_param_translation picParamState { reference_pic_flag := 1, others := [] } rfl
  exact ⟨s1, h1, hflag.2 (by decide), hothers, hidem⟩

/-- C2: with the selection of section 4.3, the descriptor `h264EncCodec`
matches (p, Encode) exactly when p is in `h264EncSupportedProfiles`, which is
its encode profile set and contains High; it matches (p, Decode) for no p, its
decode profile set being empty; so with `h264EncCodec` the only registered
descriptor, selecting (High, Encode) returns `h264EncCodec` and selecting
(High, Decode) fails with `ErrorUnsupportedProfile`. -/
theorem h264_enc_codec_selection :
    (∀ p : VAProfile,
      codecMatches h264EncCodec p .Encode = true ↔ p ∈ h264EncSupportedProfiles) ∧
    profileSet h264EncCodec.supportedEncodeProfileCount h264EncCodec.supportedEncodeProfiles
      = h264EncSupportedProfiles ∧
    VAProfileH264High ∈ h264EncSupportedProfiles ∧
    profileSet h264EncCodec.supportedProfileCount h264EncCodec.supportedProfiles = [] ∧
    (∀ p : VAProfile, codecMatches h264EncCodec p .Decode = false) ∧
    selectCodec [h264EncCodec] VAProfileH264High .Encode = .ok h264EncCodec ∧
    selectCodec [h264EncCodec] VAProfileH264High .Decode = .error .ErrorUnsupportedProfile := by
  have hset : profileSet h264EncCodec.supportedEncodeProfileCount
      h264EncCodec.supportedEncodeProfiles = h264EncSupportedProfiles := by
    simp [profileSet, h264EncCodec]
  have hdec : profileSet h264EncCodec.supportedProfileCount h264EncCodec.supportedProfiles
      = [] := rfl
  have henc : ∀ p : VAProfile,
      codecMatches h264EncCodec p .Encode = true ↔ p ∈ h264EncSupportedProfiles := by
    intro p
    simp only [codecMatches, hset, decide_eq_true_eq]
  have hno : ∀ p : VAProfile, codecMatches h264EncCodec p .Decode = false := by
    intro p
    simp only [codecMatches, hdec, List.not_mem_nil, decide_False]
  have hhigh : VAProfileH264High ∈ h264EncSupportedProfiles := by decide
  refine ⟨henc, hset, hhigh, hdec, hno, ?_, ?_⟩
  · simp only [selectCodec, List.find?, (henc VAProfileH264High).2 hhigh]
  · simp only [selectCodec, List.find?, hno VAProfileH264High]

end NvH264Enc
